import Mathlib

/-!
Shallow embedding of `src/bin/weectllib/db_actions.py` (weewx).

The three interactive database actions (`create_database`, `drop_daily`,
`rebuild_daily`) are modelled as pure functions producing a trace of
observable events: lines printed to stdout/stderr, log lines, and the
external calls into the database-manager layer (opening a manager,
dropping the daily summaries, backfilling the daily summaries).

External collaborators that are not part of this file are modelled by
environment records supplying their outcomes:
  * `weecfg.read_config` resolves the configuration path (kept as given);
  * `weeutil.weeutil.y_or_n` returns `'y'` or `'n'` (field `ans`);
  * `weectllib.parse_dates` produces the parsed `(from_d, to_d)` pair
    (fields `from_d`, `to_d`; the claims quantify over this pair);
  * `weewx.manager.open_manager_with_config` either succeeds or raises
    `weedb.OperationalError` (field `openFails`; for `create_database`
    the plain open succeeds exactly when the database exists, per the
    source comment "If it succeeds, that means the database exists");
  * `dbmanager.drop_daily()` may raise `weedb.OperationalError`
    (field `dropFails`);
  * `dbmanager.backfill_day_summary` returns `(nrecs, ndays)`;
  * `time.time()` differences: the already-formatted `f"{tdiff:.2f}"`
    rendering is carried as the string field `tdiffStr`.

Dates (`datetime.date` values) are modelled as `Nat` ordinals; the claims
only depend on presence/absence and equality of the parsed dates.
-/

/-- The answer returned by `weeutil.weeutil.y_or_n` (always `'y'` or `'n'`). -/
inductive Ans
  | y
  | n
deriving DecidableEq, Repr

/-- Observable events of one action: printed lines (stdout / stderr), log
lines, and external calls into the database-manager layer. -/
inductive Event
  | printed (s : String)
  | printedErr (s : String)
  | logInfo (s : String)
  /-- a call to `weewx.manager.open_manager_with_config`; `init` records
  whether `initialize=True` was passed. -/
  | openManager (init : Bool)
  /-- a call to `dbmanager.drop_daily()`. -/
  | dropDailyCall
  /-- a call to `dbmanager.backfill_day_summary(start_d, stop_d, trans_days)`. -/
  | backfillCall (start_d stop_d : Option Nat) (trans_days : Nat)
deriving DecidableEq, Repr

/-- An event is mutating when it can change durable state: an open with
`initialize=True` (may create the database / daily tables), a drop, or a
backfill. -/
def Event.isMutating : Event → Bool
  | Event.openManager init => init
  | Event.dropDailyCall => true
  | Event.backfillCall _ _ _ => true
  | _ => false

/-- Recognizes `backfill_day_summary` calls. -/
def Event.isBackfill : Event → Bool
  | Event.backfillCall _ _ _ => true
  | _ => false

/-- Recognizes `open_manager_with_config` calls. -/
def Event.isOpen : Event → Bool
  | Event.openManager _ => true
  | _ => false

/-- `weeutil.weeutil.bcolors.BOLD` (ANSI bold escape). -/
def bcolors.BOLD : String := "\x1b[1m"

/-- `weeutil.weeutil.bcolors.ENDC` (ANSI reset escape). -/
def bcolors.ENDC : String := "\x1b[0m"

/-- Durable state relevant to `create_database`: whether the database
behind the binding already exists (and is initialized). The plain
(non-initializing) open succeeds exactly when it does; the initializing
open creates it. -/
structure CreateWorld where
  dbExists : Bool
deriving DecidableEq, Repr

/-- Environment of a `create_database` invocation. -/
structure CreateEnv where
  config_path : String
  database_name : String
deriving DecidableEq, Repr

/-- Embedding of `create_database(config_path, db_binding, dry_run)`
(src/bin/weectllib/db_actions.py, lines 22-43). Returns the event trace
and the resulting world. -/
def create_database (e : CreateEnv) (w : CreateWorld) (dry_run : Bool) :
    List Event × CreateWorld :=
  let pre :=
    (if dry_run then
       [Event.printed "This is a dry run. Nothing will actually be done."]
     else []) ++
    [Event.printed
       s!"The configuration file {bcolors.BOLD}{e.config_path}{bcolors.ENDC} will be used."]
  if w.dbExists then
    -- the simple open succeeds: the database exists and is initialized
    (pre ++ [Event.openManager false,
             Event.printed s!"Database '{e.database_name}' already exists. Nothing done."],
     w)
  else if dry_run then
    -- weedb.OperationalError caught; `if not dry_run:` fails, nothing more
    (pre ++ [Event.openManager false], w)
  else
    -- weedb.OperationalError caught; try again allowing initialization
    (pre ++ [Event.openManager true,
             Event.printed s!"Created database '{e.database_name}'."],
     { dbExists := true })

/-- Environment of a `drop_daily` invocation. -/
structure DropEnv where
  config_path : String
  database_name : String
  /-- answer of `y_or_n("Are you sure you want to proceed (y/n)? ")`. -/
  ans : Ans
  /-- the plain `open_manager_with_config` raises `weedb.OperationalError`
  (no daily summaries). -/
  openFails : Bool
  /-- `dbmanager.drop_daily()` raises `weedb.OperationalError`. -/
  dropFails : Bool
  /-- `str(e)` of that error. -/
  dropErrMsg : String
  /-- the rendered elapsed time `f"{tdiff:.2f}"`. -/
  tdiffStr : String
deriving DecidableEq, Repr

/-- Embedding of `drop_daily(config_path, db_binding, dry_run)`
(src/bin/weectllib/db_actions.py, lines 46-82). -/
def drop_daily (e : DropEnv) (dry_run : Bool) : List Event :=
  (if dry_run then
     [Event.printed "This is a dry run. Nothing will actually be done."]
   else []) ++
  [Event.printed
     s!"The configuration file {bcolors.BOLD}{e.config_path}{bcolors.ENDC} will be used.",
   Event.printed
     s!"Proceeding will delete all your daily summaries from database '{e.database_name}'"] ++
  (if e.ans = Ans.y then
     [Event.printed s!"Dropping daily summary tables from '{e.database_name}' ... ",
      Event.openManager false] ++
     (if e.openFails then
        -- outer except weedb.OperationalError: no daily summaries
        [Event.printed
           s!"No daily summaries found in database '{e.database_name}'. Nothing done."]
      else
        (if dry_run then [] else [Event.dropDailyCall]) ++
        (if !dry_run && e.dropFails then
           -- inner except weedb.OperationalError as e
           [Event.printedErr s!"Error '{e.dropErrMsg}'",
            Event.printed
              s!"Drop daily summary tables failed for database '{e.database_name}'"]
         else
           -- try/except `else` clause: no exception was raised
           [Event.printed
              s!"Daily summary tables dropped from database '{e.database_name}' in {e.tdiffStr} seconds"]))
   else
     [Event.printed "Nothing done."]) ++
  (if dry_run then
     [Event.printed "This was a dry run. Nothing was actually done."]
   else [])

/-- Environment of a `rebuild_daily` invocation. -/
structure RebuildEnv where
  config_path : String
  database_name : String
  /-- the `(from_d, to_d)` pair returned by `weectllib.parse_dates`. -/
  from_d : Option Nat
  to_d : Option Nat
  /-- answer of `y_or_n("Rebuild the daily summaries ...? (y/n) ")`. -/
  ans : Ans
  /-- `nrecs` returned by `backfill_day_summary`. -/
  nrecs : Nat
  /-- `ndays` returned by `backfill_day_summary`. -/
  ndays : Nat
  /-- the rendered elapsed time `f"{tdiff:.2f}"`. -/
  tdiffStr : String
deriving DecidableEq, Repr

/-- The range-description message of `rebuild_daily`
(src/bin/weectllib/db_actions.py, lines 108-118): the if-chain on the
truthiness of `from_d` and `to_d` (a `datetime.date` is truthy, so
truthiness is presence). -/
def rangeMsg (from_d to_d : Option Nat) : String :=
  match from_d, to_d with
  | none, none => "All daily summaries will be rebuilt."
  | some f, none => s!"Daily summaries starting with {f} will be rebuilt."
  | none, some t => s!"Daily summaries through {t} will be rebuilt."
  | some f, some t =>
      if f = t then
        s!"Daily summary for {f} will be rebuilt."
      else
        s!"Daily summaries from {f} through {t}, inclusive, will be rebuilt."

/-- The final count message of `rebuild_daily` when `nrecs` is nonzero
(src/bin/weectllib/db_actions.py, lines 151-157). Note: in the source the
`ndays != 1` branch builds the message from an f-string continued by a
PLAIN string literal (no `f` prefix), so the text `\x7btdiff:.2f\x7d` is
emitted verbatim instead of the elapsed time. -/
def countMsg (nrecs ndays : Nat) (tdiffStr : String) : String :=
  if ndays = 1 then
    s!"Processed {nrecs} records to rebuild 1 daily summary in {tdiffStr} seconds."
  else
    s!"Processed {nrecs} records to rebuild {ndays} daily summaries in " ++
      "\x7btdiff:.2f\x7d seconds."

/-- Embedding of `rebuild_daily(config_path, db_binding, date, from_date,
to_date, dry_run)` (src/bin/weectllib/db_actions.py, lines 85-161). -/
def rebuild_daily (e : RebuildEnv) (dry_run : Bool) : List Event :=
  (if dry_run then
     [Event.printed "This is a dry run. Nothing will actually be done."]
   else []) ++
  [Event.printed
     s!"The configuration file {bcolors.BOLD}{e.config_path}{bcolors.ENDC} will be used."] ++
  [Event.logInfo (rangeMsg e.from_d e.to_d),
   Event.printed (rangeMsg e.from_d e.to_d)] ++
  (if e.ans = Ans.n then
     [Event.logInfo "Nothing done.",
      Event.printed "Nothing done."]
   else
     [Event.logInfo s!"Rebuilding daily summaries in database '{e.database_name}' ...",
      Event.printed s!"Rebuilding daily summaries in database '{e.database_name}' ..."] ++
     (if dry_run then
        [Event.printed "This was a dry run. Nothing was actually done."]
      else
        [Event.openManager true,
         Event.backfillCall e.from_d e.to_d 20,
         Event.logInfo
           s!"Rebuild of daily summaries in database '{e.database_name}' complete."] ++
        (if e.nrecs ≠ 0 then
           (if e.nrecs ≥ 1000 then [Event.printed ""] else []) ++
           [Event.printed (countMsg e.nrecs e.ndays e.tdiffStr),
            Event.printed
              s!"Rebuild of daily summaries in database '{e.database_name}' complete."]
         else
           [Event.printed s!"Daily summaries up to date in '{e.database_name}'."])))

example :
    countMsg 7 1 "0.42" = "Processed 7 records to rebuild 1 daily summary in 0.42 seconds." := by
  decide

example :
    countMsg 5 2 "0.42" =
      "Processed 5 records to rebuild 2 daily summaries in \x7btdiff:.2f\x7d seconds." := by
  decide

/-- C1: the claim says every confirmed, non-dry-run rebuild with
`record_count > 0` reports the elapsed wall-clock time. The code's
`ndays != 1` branch builds the message from an f-string continued by a
plain (non-f) string literal, so the elapsed time is NOT reported there:
with `nrecs = 5`, `ndays = 2` and elapsed time rendered as `0.42`, the
trace contains the literal text `\x7btdiff:.2f\x7d seconds.` and not the
formatted time, while the `ndays = 1` branch does format it. -/
theorem rebuild_plural_msg_missing_time :
    Event.printed "Processed 5 records to rebuild 2 daily summaries in \x7btdiff:.2f\x7d seconds."
      ∈ rebuild_daily ⟨"weewx.conf", "weewx.sdb", none, none, Ans.y, 5, 2, "0.42"⟩ false
    ∧ Event.printed "Processed 5 records to rebuild 2 daily summaries in 0.42 seconds."
      ∉ rebuild_daily ⟨"weewx.conf", "weewx.sdb", none, none, Ans.y, 5, 2, "0.42"⟩ false
    ∧ Event.printed "Processed 7 records to rebuild 1 daily summary in 0.42 seconds."
      ∈ rebuild_daily ⟨"weewx.conf", "weewx.sdb", none, none, Ans.y, 7, 1, "0.42"⟩ false := by
  refine ⟨?_, ?_, ?_⟩ <;> decide

/-- C2: with `dry_run = True`, none of the three actions ever performs a
mutating external call (no `initialize=True` open, no `drop_daily()`, no
`backfill_day_summary`), for any confirmation answer and any outcome of
the non-mutating opens. -/
theorem dry_run_no_mutation (ce : CreateEnv) (w : CreateWorld)
    (de : DropEnv) (re : RebuildEnv) :
    ((create_database ce w true).1.all (fun ev => !ev.isMutating) = true)
    ∧ ((drop_daily de true).all (fun ev => !ev.isMutating) = true)
    ∧ ((rebuild_daily re true).all (fun ev => !ev.isMutating) = true) := by
  refine ⟨?_, ?_, ?_⟩
  · obtain ⟨b⟩ := w
    cases b <;> simp [create_database, Event.isMutating]
  · obtain ⟨cp, dn, a, oF, dF, em, td⟩ := de
    cases a <;> cases oF <;> cases dF <;>
      simp [drop_daily, Event.isMutating]
  · obtain ⟨cp, dn, f, t, a, nr, nd, td⟩ := re
    cases a <;> simp [rebuild_daily, Event.isMutating]

/-- C3: for a confirmed (`ans = 'y'`), non-dry-run `drop_daily`, an
operational error raised by `drop_daily()` after a successful open yields
the full trace ending in the stderr error line and the "failed" message
(the function returns normally, producing a trace), while an operational
error raised by the open itself yields the trace ending in the distinct
"No daily summaries found ... Nothing done." message; at a concrete
database name the two messages differ. -/
theorem drop_daily_two_error_paths (cp dn em td : String) (dF : Bool) :
    drop_daily ⟨cp, dn, Ans.y, false, true, em, td⟩ false =
      [Event.printed s!"The configuration file {bcolors.BOLD}{cp}{bcolors.ENDC} will be used.",
       Event.printed s!"Proceeding will delete all your daily summaries from database '{dn}'",
       Event.printed s!"Dropping daily summary tables from '{dn}' ... ",
       Event.openManager false,
       Event.dropDailyCall,
       Event.printedErr s!"Error '{em}'",
       Event.printed s!"Drop daily summary tables failed for database '{dn}'"]
    ∧ drop_daily ⟨cp, dn, Ans.y, true, dF, em, td⟩ false =
      [Event.printed s!"The configuration file {bcolors.BOLD}{cp}{bcolors.ENDC} will be used.",
       Event.printed s!"Proceeding will delete all your daily summaries from database '{dn}'",
       Event.printed s!"Dropping daily summary tables from '{dn}' ... ",
       Event.openManager false,
       Event.printed s!"No daily summaries found in database '{dn}'. Nothing done."]
    ∧ ("Drop daily summary tables failed for database 'weewx.sdb'" : String)
        ≠ "No daily summaries found in database 'weewx.sdb'. Nothing done." := by
  refine ⟨rfl, rfl, by decide⟩

/-- C4: the range description printed (and logged) by `rebuild_daily` is
always `rangeMsg from_d to_d`, and `rangeMsg` realizes exactly the five
cases of the claim: both absent, from-only, to-only, both equal
(singular), both present and different. -/
theorem rebuild_range_five_cases (cp dn td : String) (f t : Option Nat)
    (a : Ans) (nr nd : Nat) (dry : Bool) :
    Event.printed (rangeMsg f t) ∈ rebuild_daily ⟨cp, dn, f, t, a, nr, nd, td⟩ dry
    ∧ rangeMsg none none = "All daily summaries will be rebuilt."
    ∧ (∀ x : Nat, rangeMsg (some x) none = s!"Daily summaries starting with {x} will be rebuilt.")
    ∧ (∀ x : Nat, rangeMsg none (some x) = s!"Daily summaries through {x} will be rebuilt.")
    ∧ (∀ x : Nat, rangeMsg (some x) (some x) = s!"Daily summary for {x} will be rebuilt.")
    ∧ (∀ x y : Nat, x ≠ y →
        rangeMsg (some x) (some y) =
          s!"Daily summaries from {x} through {y}, inclusive, will be rebuilt.") := by
  refine ⟨?_, rfl, fun x => rfl, fun x => rfl, ?_, ?_⟩
  · simp [rebuild_daily]
  · intro x
    simp [rangeMsg]
  · intro x y hxy
    simp [rangeMsg, hxy]

/-- C4 witness: the theorem applied at concrete inputs, discharging the
`x ≠ y` hypothesis of its last conjunct at `x = 1`, `y = 2`. -/
theorem rebuild_range_five_cases_witness :
    Event.printed (rangeMsg (some 1) (some 2))
      ∈ rebuild_daily ⟨"weewx.conf", "weewx.sdb", some 1, some 2, Ans.y, 0, 0, "0.10"⟩ false
    ∧ rangeMsg (some 1) (some 2) =
        "Daily summaries from 1 through 2, inclusive, will be rebuilt." :=
  ⟨(rebuild_range_five_cases "weewx.conf" "weewx.sdb" "0.10"
      (some 1) (some 2) Ans.y 0 0 false).1,
   (rebuild_range_five_cases "weewx.conf" "weewx.sdb" "0.10"
      (some 1) (some 2) Ans.y 0 0 false).2.2.2.2.2 1 2 (by decide)⟩

/-- C5: when the database exists, `create_database` makes no
`initialize=True` open (for either value of `dry_run`) and prints the
"already exists" message; when it does not exist and `dry_run` is false,
exactly one `initialize=True` open occurs and the "Created database"
message is printed. -/
theorem create_database_exists_or_creates (cp dn : String) (dry : Bool) :
    (((create_database ⟨cp, dn⟩ ⟨true⟩ dry).1.filter
        (fun ev => ev == Event.openManager true)).length = 0
      ∧ Event.printed s!"Database '{dn}' already exists. Nothing done."
          ∈ (create_database ⟨cp, dn⟩ ⟨true⟩ dry).1)
    ∧ (((create_database ⟨cp, dn⟩ ⟨false⟩ false).1.filter
        (fun ev => ev == Event.openManager true)).length = 1
      ∧ Event.printed s!"Created database '{dn}'."
          ∈ (create_database ⟨cp, dn⟩ ⟨false⟩ false).1) := by
  cases dry <;> simp [create_database]

/-- C6: when the confirmation prompt answers `'n'`, both `drop_daily` and
`rebuild_daily` perform no mutating call, print "Nothing done.", and
terminate normally (the whole trace is produced), for any `dry_run` and
any outcome of the other external calls. -/
theorem decline_confirmation_nothing_done (cp dn em td : String)
    (oF dF dry : Bool) (f t : Option Nat) (nr nd : Nat) :
    ((drop_daily ⟨cp, dn, Ans.n, oF, dF, em, td⟩ dry).all
        (fun ev => !ev.isMutating) = true
      ∧ Event.printed "Nothing done." ∈ drop_daily ⟨cp, dn, Ans.n, oF, dF, em, td⟩ dry)
    ∧ ((rebuild_daily ⟨cp, dn, f, t, Ans.n, nr, nd, td⟩ dry).all
        (fun ev => !ev.isMutating) = true
      ∧ Event.printed "Nothing done."
          ∈ rebuild_daily ⟨cp, dn, f, t, Ans.n, nr, nd, td⟩ dry) := by
  refine ⟨⟨?_, ?_⟩, ⟨?_, ?_⟩⟩ <;>
    cases dry <;> simp [drop_daily, rebuild_daily, Event.isMutating]

/-- C7: for a confirmed (`ans ≠ 'n'`), non-dry-run `rebuild_daily`, the
only manager open in the trace passes `initialize=True`, and exactly one
`backfill_day_summary` call occurs, with the parsed `from_d`/`to_d` dates
and `trans_days = 20`. -/
theorem rebuild_confirmed_opens_and_backfills_once (cp dn td : String)
    (f t : Option Nat) (nr nd : Nat) :
    (rebuild_daily ⟨cp, dn, f, t, Ans.y, nr, nd, td⟩ false).filter
        (fun ev => ev.isOpen) = [Event.openManager true]
    ∧ (rebuild_daily ⟨cp, dn, f, t, Ans.y, nr, nd, td⟩ false).filter
        (fun ev => ev.isBackfill) = [Event.backfillCall f t 20] := by
  constructor <;>
    · simp only [rebuild_daily]
      split_ifs <;>
        first
          | contradiction
          | simp [Event.isOpen, Event.isBackfill]

/-- C8: `create_database` is idempotent: from any starting world, the
first (non-dry) run either finds the database (printing "already exists")
or creates it (printing "Created database"), and the second run on the
resulting world makes no `initialize=True` open and prints the "already
exists" message; neither run raises (both produce complete traces). -/
theorem create_database_idempotent (cp dn : String) (b : Bool) :
    (Event.printed s!"Database '{dn}' already exists. Nothing done."
        ∈ (create_database ⟨cp, dn⟩ ⟨b⟩ false).1
      ∨ Event.printed s!"Created database '{dn}'."
        ∈ (create_database ⟨cp, dn⟩ ⟨b⟩ false).1)
    ∧ ((create_database ⟨cp, dn⟩ (create_database ⟨cp, dn⟩ ⟨b⟩ false).2 false).1.filter
        (fun ev => ev == Event.openManager true)).length = 0
    ∧ Event.printed s!"Database '{dn}' already exists. Nothing done."
        ∈ (create_database ⟨cp, dn⟩ (create_database ⟨cp, dn⟩ ⟨b⟩ false).2 false).1 := by
  cases b <;> simp [create_database]

/-- C9: a dry-run `drop_daily` confirmed with `'y'` whose open succeeds
prints the same "Daily summary tables dropped ... in ... seconds" success
message as a real drop, even though `drop_daily()` is never called (for
either outcome `dF` the real drop would have had). -/
theorem drop_daily_dry_run_prints_success (cp dn em td : String) (dF : Bool) :
    Event.printed
        s!"Daily summary tables dropped from database '{dn}' in {td} seconds"
      ∈ drop_daily ⟨cp, dn, Ans.y, false, dF, em, td⟩ true
    ∧ Event.dropDailyCall ∉ drop_daily ⟨cp, dn, Ans.y, false, dF, em, td⟩ true := by
  simp [drop_daily]

/-- C10: a dry-run `create_database` on a nonexistent database swallows
the operational error of the plain open and returns normally: the trace
is exactly the dry-run notice, the configuration-file line, and the
non-mutating open — no "created", "already exists", or error message —
and the world is unchanged. -/
theorem create_database_dry_run_nonexistent (cp dn : String) :
    (create_database ⟨cp, dn⟩ ⟨false⟩ true).1 =
      [Event.printed "This is a dry run. Nothing will actually be done.",
       Event.printed
         s!"The configuration file {bcolors.BOLD}{cp}{bcolors.ENDC} will be used.",
       Event.openManager false]
    ∧ (create_database ⟨cp, dn⟩ ⟨false⟩ true).2 = ⟨false⟩ :=
  ⟨rfl, rfl⟩
